import Mathlib

/-
Verification development for the nginx-mgr (ngx-nova) management panel.

The Go sources are shallowly embedded: filesystem state becomes explicit
record-typed stores, external commands (nginx -t, systemctl, tar, cp) become
boolean oracles together with an event trace, and every HTTP mutation handler
becomes a pure state transformer returning the new store plus the response.
-/

set_option maxHeartbeats 1000000

namespace NginxMgr

/-! ## String helpers mirroring the Go standard library calls used by the code -/

/-- Mirrors strings.Split(content, sep) for a one-character separator, working on
the character list of the string. -/
def splitOnChar (c : Char) : List Char → List (List Char)
  | [] => [[]]
  | x :: xs =>
    match splitOnChar c xs with
    | [] => [[]]
    | h :: t => if x = c then [] :: h :: t else (x :: h) :: t

/-- Mirrors strings.TrimSpace on a character list: whitespace stripped from both ends. -/
def trimSpaceL (l : List Char) : List Char :=
  List.reverse (List.dropWhile Char.isWhitespace (List.reverse (List.dropWhile Char.isWhitespace l)))

/-- Mirrors strings.TrimSpace. -/
def trimSpace (s : String) : String := String.mk (trimSpaceL s.data)

/-- Mirrors strings.HasSuffix(name, ".tar.gz"), the archive-recognition test of
selectLatestBackup in internal/service/system_svc.go. -/
def hasTarGzSuffix (name : String) : Bool := List.isSuffixOf (".tar.gz".data) name.data

/-- Mirrors strings.TrimSuffix(value, ";"): strip one trailing semicolon when present. -/
def trimSuffixSemicolon (l : List Char) : List Char :=
  if List.isSuffixOf ([';']) l then List.dropLast l else l

/-- Digit accumulator for the strconv.Atoi model. -/
def digitsToNatAux (acc : Nat) : List Char → Option Nat
  | [] => some acc
  | c :: r => if c.isDigit then digitsToNatAux (acc * 10 + (c.toNat - 48)) r else none

/-- All-digit parse; empty input is rejected, as in strconv.Atoi. -/
def digitsToNat : List Char → Option Nat
  | [] => none
  | l => digitsToNatAux 0 l

/-- Mirrors strconv.Atoi: optional sign followed by at least one digit. -/
def atoi : List Char → Option Int
  | [] => none
  | '-' :: rest => (digitsToNat rest).map (fun n => -(n : Int))
  | '+' :: rest => (digitsToNat rest).map (fun n => (n : Int))
  | l => (digitsToNat l).map (fun n => (n : Int))

/-! ## External command oracle for SystemService.Reload

SystemService.Reload (internal/service/system_svc.go) first runs the managed
service's syntax check (nginx -t) and only on success issues the hot reload
(systemctl reload nginx).  The two external commands are modelled by a boolean
oracle; the function returns the list of commands issued and the outcome. -/

/-- Commands that SystemService.Reload can issue. -/
inductive SysCmdEvent
  | nginxTest
  | reloadNginx
deriving DecidableEq, Repr

/-- Failure modes of SystemService.Reload. -/
inductive SysErr
  | testFailed
  | reloadFailed
deriving DecidableEq, Repr

/-- Exit statuses of the two external commands Reload runs. -/
structure SysOracle where
  testOk : Bool
  reloadOk : Bool
deriving DecidableEq, Repr

/-- SystemService.Reload: run nginx -t; on failure return the error without
reloading; otherwise run systemctl reload nginx and report its outcome. -/
def Reload (o : SysOracle) : List SysCmdEvent × Except SysErr Unit :=
  if o.testOk then
    ([SysCmdEvent.nginxTest, SysCmdEvent.reloadNginx],
      if o.reloadOk then Except.ok () else Except.error SysErr.reloadFailed)
  else
    ([SysCmdEvent.nginxTest], Except.error SysErr.testFailed)

/-! ## selectLatestBackup (internal/service/system_svc.go) -/

/-- One entry of os.ReadDir: its name, whether it is a directory, its
modification time (entry.Info().ModTime(), as a number), and whether
entry.Info() succeeded. -/
structure DirEntry where
  name : String
  isDir : Bool
  modTime : Nat
  infoOk : Bool
deriving DecidableEq, Repr

/-- An entry survives all three continue-filters of the selection loop:
it is not a directory, carries the .tar.gz suffix, and its Info call succeeded. -/
def recognizedEntry (e : DirEntry) : Bool :=
  !e.isDir && hasTarGzSuffix e.name && e.infoOk

/-- The selection loop of selectLatestBackup: selected starts as the empty
string; an entry replaces it when nothing is selected yet or its modification
time is strictly after the current latest (info.ModTime().After(latestTime)). -/
def selGo (dir : String) : List DirEntry → String → Nat → String × Nat
  | [], sel, t => (sel, t)
  | e :: rest, sel, t =>
    if e.isDir then selGo dir rest sel t
    else if !(hasTarGzSuffix e.name) then selGo dir rest sel t
    else if !e.infoOk then selGo dir rest sel t
    else if sel = "" ∨ e.modTime > t then selGo dir rest (dir ++ "/" ++ e.name) e.modTime
    else selGo dir rest sel t

/-- selectLatestBackup: scan the directory entries and return the selected
archive path, or an error when no recognized archive was found. -/
def selectLatestBackup (dir : String) (entries : List DirEntry) : Except String String :=
  let r := selGo dir entries "" 0
  if r.1 = "" then Except.error ("未发现可用的备份文件 (目录: " ++ dir ++ ")")
  else Except.ok r.1

/-! ## Configuration store data model

The Configuration Store is the filesystem: sites-available holds one text
file per unit, sites-enabled holds one symbolic link per enabled unit, and a
static site additionally owns a content directory under /var/www/html.
The three path families are represented as maps keyed by the unit name. -/

/-- model.SiteConfig (internal/model/config.go).  The Go field Type is named
siteType here because Type is reserved in Lean. -/
structure SiteConfig where
  domain : String
  siteType : String
  backendIP : String
  backendPort : Int
  backends : List String
  targetURL : String
deriving DecidableEq, Repr

/-- model.StreamConfig (internal/model/config.go). -/
structure StreamConfig where
  name : String
  listenPort : Int
  target : String
deriving DecidableEq, Repr

/-- The site portion of the store: sites-available bodies, sites-enabled
links, and provisioned /var/www/html content directories. -/
structure SiteStore where
  available : String → Option String
  enabled : String → Bool
  contentDirs : String → Bool

/-- The stream portion of the store: streams-available bodies and
streams-enabled links. -/
structure StreamStore where
  available : String → Option String
  enabled : String → Bool

/-- The slice of an HTTP handler response the claims are about: the status
code and the rolled_back field of the JSON body (absent when the response
carries no such field). -/
structure Resp where
  status : Nat
  rolledBack : Option Bool
deriving DecidableEq, Repr

/-! ## SiteService (internal/service/site_svc.go) -/

/-- The template chosen by the switch at the top of SiteService.CreateSite;
none for the default branch, which rejects the site type. -/
def tmplNameFor : String → Option String
  | "proxy" => some ("proxy.tmpl")
  | "static" => some ("static.tmpl")
  | "lb" => some ("lb.tmpl")
  | "redirect" => some ("redirect.tmpl")
  | _ => none

/-- SiteService.CreateSite.  The embedded template files are not part of the
repository snapshot, so rendering is a parameter (render tmplName config);
the transaction protocol is agnostic to it.  The switch picks the template
(rejecting unknown types before any mutation), a static site provisions its
content directory, the rendered body is written to sites-available, and the
site is enabled by replacing the sites-enabled link. -/
def CreateSite (render : String → SiteConfig → String) (st : SiteStore)
    (config : SiteConfig) : SiteStore × Except String Unit :=
  match tmplNameFor config.siteType with
  | none => (st, Except.error ("不支持的站点类型: " ++ config.siteType))
  | some tmplName =>
    let st0 : SiteStore :=
      if config.siteType = "static" then
        { st with contentDirs := fun d => if d = config.domain then true else st.contentDirs d }
      else st
    let body := render tmplName config
    let st1 : SiteStore :=
      { st0 with available := fun d => if d = config.domain then some body else st0.available d }
    let st2 : SiteStore :=
      { st1 with enabled := fun d => if d = config.domain then true else st1.enabled d }
    (st2, Except.ok ())

/-- SiteService.DeleteSite: remove the sites-enabled link, then the
sites-available file.  The content directory is not touched. -/
def deleteSiteStore (st : SiteStore) (domain : String) : SiteStore :=
  { st with
    available := fun d => if d = domain then none else st.available d
    enabled := fun d => if d = domain then false else st.enabled d }

/-- SiteService.WriteSiteRaw: os.WriteFile of the body into sites-available;
the enabled link is not touched. -/
def writeSiteRaw (st : SiteStore) (domain content : String) : SiteStore :=
  { st with available := fun d => if d = domain then some content else st.available d }

/-- SiteService.RestoreSiteRaw: write the captured body back into
sites-available, then remove any sites-enabled link and recreate it, so the
restored unit always ends up enabled. -/
def restoreSiteRawStore (st : SiteStore) (domain content : String) : SiteStore :=
  { st with
    available := fun d => if d = domain then some content else st.available d
    enabled := fun d => if d = domain then true else st.enabled d }

/-! ## StreamService (src/unnamed/part_002) -/

/-- StreamService.CreateStream: render the stream template and write it to
streams-available, then replace the streams-enabled link.  As with sites the
embedded template is a parameter. -/
def CreateStream (render : StreamConfig → String) (st : StreamStore)
    (config : StreamConfig) : StreamStore :=
  { st with
    available := fun n => if n = config.name then some (render config) else st.available n
    enabled := fun n => if n = config.name then true else st.enabled n }

/-- StreamService.WriteStreamRaw: write the body to streams-available and
make sure a streams-enabled symlink exists (created when missing, replaced
when the entry is not a symlink, kept when it already is one); in every case
the unit ends up enabled. -/
def writeStreamRaw (st : StreamStore) (name content : String) : StreamStore :=
  { st with
    available := fun n => if n = name then some content else st.available n
    enabled := fun n => if n = name then true else st.enabled n }

/-- The per-line switch of StreamService.GetStream: a trimmed line starting
with "listen " sets the port via strconv.Atoi (failing the whole parse on a
bad number); otherwise a trimmed line starting with "server " and ending in
";" sets the target. -/
def parseStreamLines : List String → StreamConfig → Except String StreamConfig
  | [], cfg => Except.ok cfg
  | line :: rest, cfg =>
    let l := trimSpace line
    if List.isPrefixOf ("listen ".data) l.data then
      match atoi (trimSuffixSemicolon (List.drop 7 l.data)) with
      | none => Except.error ("解析端口失败")
      | some p => parseStreamLines rest { cfg with listenPort := p }
    else if List.isPrefixOf ("server ".data) l.data ∧ List.isSuffixOf ([';']) l.data then
      parseStreamLines rest { cfg with target := String.mk (trimSuffixSemicolon (List.drop 7 l.data)) }
    else
      parseStreamLines rest cfg

/-- StreamService.GetStream applied to the raw body read from
streams-available: split into lines and fold the per-line switch over a zero
config carrying the unit name. -/
def GetStream (name : String) (content : String) : Except String StreamConfig :=
  parseStreamLines ((splitOnChar '\n' content.data).map String.mk)
    { name := name, listenPort := 0, target := "" }

/-! ## Mutation handlers (main.go)

Each handler is a state transformer over the store.  The commit attempt is
systemSvc.Reload() driven by the SysOracle; the best-effort second reload
issued after a rollback does not modify the store and its result is
discarded by the Go code, so it appears here only as a comment. -/

/-- POST /sites: CreateSite, then Reload; on reload failure delete the unit
again, best-effort reload, and answer 500 with rolled_back true. -/
def postSiteHandler (o : SysOracle) (render : String → SiteConfig → String)
    (st : SiteStore) (config : SiteConfig) : SiteStore × Resp :=
  match CreateSite render st config with
  | (st1, Except.error _) => (st1, { status := 500, rolledBack := none })
  | (st1, Except.ok _) =>
    match (Reload o).2 with
    | Except.ok _ => (st1, { status := 201, rolledBack := none })
    | Except.error _ =>
      let st2 := deleteSiteStore st1 config.domain
      -- _ = systemSvc.Reload()
      (st2, { status := 500, rolledBack := some true })

/-- PUT /sites/:domain: after the domain check, capture the raw previous
body, re-create the site from the template, Reload; on failure write the
captured raw body back and answer 500 with rolled_back true. -/
def putSiteHandler (o : SysOracle) (render : String → SiteConfig → String)
    (st : SiteStore) (domain : String) (configIn : SiteConfig) : SiteStore × Resp :=
  let config := if configIn.domain = "" then { configIn with domain := domain } else configIn
  if config.domain ≠ domain then (st, { status := 400, rolledBack := none })
  else
    match st.available domain with
    | none => (st, { status := 404, rolledBack := none })
    | some prevContent =>
      match CreateSite render st config with
      | (st1, Except.error _) => (st1, { status := 500, rolledBack := none })
      | (st1, Except.ok _) =>
        match (Reload o).2 with
        | Except.ok _ => (st1, { status := 200, rolledBack := none })
        | Except.error _ =>
          let st2 := writeSiteRaw st1 domain prevContent
          -- _ = systemSvc.Reload()
          (st2, { status := 500, rolledBack := some true })

/-- PUT /sites/:domain/raw: capture the previous body, write the submitted
content, Reload; on failure write the captured body back (byte-for-byte) and
answer 500 with rolled_back true. -/
def putSiteRawHandler (o : SysOracle) (st : SiteStore)
    (domain content : String) : SiteStore × Resp :=
  match st.available domain with
  | none => (st, { status := 404, rolledBack := none })
  | some prevContent =>
    let st1 := writeSiteRaw st domain content
    match (Reload o).2 with
    | Except.ok _ => (st1, { status := 200, rolledBack := none })
    | Except.error _ =>
      let st2 := writeSiteRaw st1 domain prevContent
      -- _ = systemSvc.Reload()
      (st2, { status := 500, rolledBack := some true })

/-- DELETE /sites/:domain: capture the previous body, delete the unit,
Reload; on failure call RestoreSiteRaw and, only when that succeeded, the
best-effort reload; the response is 500 with rolled_back true either way.
restoreOk is the exit status of RestoreSiteRaw's filesystem writes. -/
def deleteSiteHandler (o : SysOracle) (restoreOk : Bool) (st : SiteStore)
    (domain : String) : SiteStore × Resp :=
  match st.available domain with
  | none => (st, { status := 404, rolledBack := none })
  | some prevContent =>
    let st1 := deleteSiteStore st domain
    match (Reload o).2 with
    | Except.ok _ => (st1, { status := 200, rolledBack := none })
    | Except.error _ =>
      if restoreOk then
        let st2 := restoreSiteRawStore st1 domain prevContent
        -- _ = systemSvc.Reload()
        (st2, { status := 500, rolledBack := some true })
      else
        (st1, { status := 500, rolledBack := some true })

/-- PUT /streams/:name: capture the previous state by parsing it with
GetStream, re-create the stream from the submitted config, Reload; on
failure re-create the stream from the parsed backup (a template re-render,
not the captured bytes) and answer 500 with rolled_back true. -/
def putStreamHandler (o : SysOracle) (render : StreamConfig → String)
    (st : StreamStore) (name : String) (configIn : StreamConfig) : StreamStore × Resp :=
  match st.available name with
  | none => (st, { status := 404, rolledBack := none })
  | some prevContent =>
    match GetStream name prevContent with
    | Except.error _ => (st, { status := 404, rolledBack := none })
    | Except.ok backup =>
      let config := if configIn.name = "" then { configIn with name := name } else configIn
      if config.name ≠ name then (st, { status := 400, rolledBack := none })
      else
        let st1 := CreateStream render st config
        match (Reload o).2 with
        | Except.ok _ => (st1, { status := 200, rolledBack := none })
        | Except.error _ =>
          let st2 := CreateStream render st1 backup
          -- _ = systemSvc.Reload()
          (st2, { status := 500, rolledBack := some true })

/-- PUT /streams/:name/raw: capture the previous body, write the submitted
content, Reload; on failure write the captured body back (byte-for-byte) and
answer 500 with rolled_back true. -/
def putStreamRawHandler (o : SysOracle) (st : StreamStore)
    (name content : String) : StreamStore × Resp :=
  match st.available name with
  | none => (st, { status := 404, rolledBack := none })
  | some prevContent =>
    let st1 := writeStreamRaw st name content
    match (Reload o).2 with
    | Except.ok _ => (st1, { status := 200, rolledBack := none })
    | Except.error _ =>
      let st2 := writeStreamRaw st1 name prevContent
      -- _ = systemSvc.Reload()
      (st2, { status := 500, rolledBack := some true })

/-! ## Restore orchestrator (internal/service/system_svc.go)

SystemService.Restore is modelled as a trace-producing function: the oracle
fixes the exit status of every external command and the shape of the
extracted archive, and the function returns the list of operations performed
together with the outcome.  defer statements append their operation to every
return path reached after their registration, in last-in-first-out order. -/

/-- What the extracted archive root contains: etc/nginx, var/www/html, and
the alternate top-level nginx directory recognized by applyExtractedArchive. -/
structure ArchiveLayout where
  hasEtcNginx : Bool
  hasVarWww : Bool
  hasAltNginx : Bool
deriving DecidableEq, Repr

/-- Source directory of one copy task of applyExtractedArchive. -/
inductive CopySrc
  | etcNginx
  | varWwwHtml
  | altNginx
  | archiveRoot
deriving DecidableEq, Repr

/-- Destination directory of one copy task of applyExtractedArchive. -/
inductive CopyDest
  | nginxConfDir
  | webRootDir
deriving DecidableEq, Repr

/-- The task list built by applyExtractedArchive: etc/nginx goes to the
configuration root, var/www/html to the content root, the alternate nginx
directory to the configuration root only when etc/nginx is absent, and when
no task was recognized the archive root itself goes to the configuration
root. -/
def applyTasks (a : ArchiveLayout) : List (CopySrc × CopyDest) :=
  let t1 := if a.hasEtcNginx then [(CopySrc.etcNginx, CopyDest.nginxConfDir)] else []
  let t2 := if a.hasVarWww then [(CopySrc.varWwwHtml, CopyDest.webRootDir)] else []
  let t3 := if a.hasAltNginx && !a.hasEtcNginx then [(CopySrc.altNginx, CopyDest.nginxConfDir)] else []
  let ts := t1 ++ t2 ++ t3
  if ts.isEmpty then [(CopySrc.archiveRoot, CopyDest.nginxConfDir)] else ts

/-- Operations the restore path can perform. -/
inductive REvent
  | statFile
  | selectBackup
  | verifyArchive
  | snapshotCreate
  | stopService
  | pkillService
  | mkTemp
  | extractArchive
  | mkdirDest
  | copyDir
  | validateRun
  | startService
  | removeSnapshot
  | removeTmp
deriving DecidableEq, Repr

/-- Failure modes of SystemService.Restore; the Boolean payload records
whether the compensating restoreFromBackup call itself also failed. -/
inductive RErr
  | emptyPath
  | statFailed
  | noBackupFound
  | statAfterSelect
  | verifyFailed
  | snapshotFailed
  | mkTempFailed
  | extractFailed (rollbackAlsoFailed : Bool)
  | applyFailed (rollbackAlsoFailed : Bool)
  | validateFailed (rollbackAlsoFailed : Bool)
  | startFailed (rollbackAlsoFailed : Bool)
deriving DecidableEq, Repr

/-- Exit statuses of the external commands of one restore invocation, plus
the directory listing used when the input path is a directory and the layout
of the extracted archive. -/
structure RestoreOracle where
  statOk : Bool
  isDir : Bool
  entries : List DirEntry
  statOk2 : Bool
  verifyOk : Bool
  snapshotOk : Bool
  stopOk : Bool
  mkTempOk : Bool
  extractOk : Bool
  layout : ArchiveLayout
  mkdirOk : Bool
  copyOk : Bool
  validateOk : Bool
  startOk : Bool
  rbStatOk : Bool
  rbExtractOk : Bool
  rbStartOk : Bool
deriving Repr

/-- The path of the pre-restore safety snapshot; the Go code embeds a
timestamp, irrelevant here. -/
def snapPath : String := "/tmp/nginx_pre_restore.tar.gz"

/-- Whether a compensating call failed, as recorded in the error payload. -/
def rollbackFlag : Except String Unit → Bool
  | Except.ok _ => false
  | Except.error _ => true

/-- SystemService.restoreFromBackup: after a path and stat check, stop the
service and pkill it (both unconditionally, results ignored), extract the
snapshot over the live tree, and start the service again. -/
def restoreFromBackup (o : RestoreOracle) (backupFile : String) : List REvent × Except String Unit :=
  if trimSpace backupFile = "" then ([], Except.error ("未找到可用的原始备份文件"))
  else if ¬ o.rbStatOk then ([REvent.statFile], Except.error ("快照缺失"))
  else
    let evs := [REvent.statFile, REvent.stopService, REvent.pkillService]
    if ¬ o.rbExtractOk then (evs ++ [REvent.extractArchive], Except.error ("解压快照失败"))
    else if ¬ o.rbStartOk then
      (evs ++ [REvent.extractArchive, REvent.startService], Except.error ("启动失败"))
    else (evs ++ [REvent.extractArchive, REvent.startService], Except.ok ())

/-- SystemService.applyExtractedArchive: for each task in order, create the
destination directory and copy the extracted subtree over it, stopping at
the first failure. -/
def applyExtractedArchive (a : ArchiveLayout) (mkdirOk copyOk : Bool) : List REvent × Except String Unit :=
  match applyTasks a with
  | [] => ([], Except.ok ())
  | _ :: _ =>
    if ¬ mkdirOk then ([REvent.mkdirDest], Except.error ("创建目录失败"))
    else if ¬ copyOk then ([REvent.mkdirDest, REvent.copyDir], Except.error ("复制失败"))
    else (((applyTasks a).map (fun _ => [REvent.mkdirDest, REvent.copyDir])).flatten, Except.ok ())

/-- The part of SystemService.Restore that runs after the safety snapshot
has been created: stop the service (pkill on failure), make the temporary
directory, extract, apply, validate, start, invoking restoreFromBackup on
the snapshot whenever a step after the stop fails.  The deferred removal of
the temporary directory appends removeTmp to every path reached after
os.MkdirTemp succeeded. -/
def afterSnapshot (o : RestoreOracle) : List REvent × Except RErr Unit :=
  let stopEvs := if o.stopOk then [REvent.stopService] else [REvent.stopService, REvent.pkillService]
  if ¬ o.mkTempOk then
    let rb := restoreFromBackup o snapPath
    (stopEvs ++ [REvent.mkTemp] ++ rb.1, Except.error RErr.mkTempFailed)
  else if ¬ o.extractOk then
    let rb := restoreFromBackup o snapPath
    (stopEvs ++ [REvent.mkTemp, REvent.extractArchive] ++ rb.1 ++ [REvent.removeTmp],
      Except.error (RErr.extractFailed (rollbackFlag rb.2)))
  else
    match applyExtractedArchive o.layout o.mkdirOk o.copyOk with
    | (aevs, Except.error _) =>
      let rb := restoreFromBackup o snapPath
      (stopEvs ++ [REvent.mkTemp, REvent.extractArchive] ++ aevs ++ rb.1 ++ [REvent.removeTmp],
        Except.error (RErr.applyFailed (rollbackFlag rb.2)))
    | (aevs, Except.ok _) =>
      if ¬ o.validateOk then
        let rb := restoreFromBackup o snapPath
        (stopEvs ++ [REvent.mkTemp, REvent.extractArchive] ++ aevs ++ [REvent.validateRun] ++ rb.1 ++ [REvent.removeTmp],
          Except.error (RErr.validateFailed (rollbackFlag rb.2)))
      else if ¬ o.startOk then
        let rb := restoreFromBackup o snapPath
        (stopEvs ++ [REvent.mkTemp, REvent.extractArchive] ++ aevs ++ [REvent.validateRun, REvent.startService] ++ rb.1 ++ [REvent.removeTmp],
          Except.error (RErr.startFailed (rollbackFlag rb.2)))
      else
        (stopEvs ++ [REvent.mkTemp, REvent.extractArchive] ++ aevs ++ [REvent.validateRun, REvent.startService, REvent.removeTmp],
          Except.ok ())

/-- The opening of SystemService.Restore: trim and check the input path,
stat it, and when it names a directory run selectLatestBackup and stat the
selected archive. -/
def restoreResolve (o : RestoreOracle) (backupPath : String) : List REvent × Except RErr Unit :=
  if trimSpace backupPath = "" then ([], Except.error RErr.emptyPath)
  else if ¬ o.statOk then ([REvent.statFile], Except.error RErr.statFailed)
  else if o.isDir then
    match selectLatestBackup (trimSpace backupPath) o.entries with
    | Except.error _ => ([REvent.statFile, REvent.selectBackup], Except.error RErr.noBackupFound)
    | Except.ok _ =>
      if ¬ o.statOk2 then
        ([REvent.statFile, REvent.selectBackup, REvent.statFile], Except.error RErr.statAfterSelect)
      else ([REvent.statFile, REvent.selectBackup, REvent.statFile], Except.ok ())
  else ([REvent.statFile], Except.ok ())

/-- SystemService.Restore: resolve the input path, verify the archive with
tar -tzf, create the safety snapshot, then run the post-snapshot stages.
The deferred removal of the snapshot appends removeSnapshot to every path
reached after its creation succeeded. -/
def Restore (o : RestoreOracle) (backupPath : String) : List REvent × Except RErr Unit :=
  match restoreResolve o backupPath with
  | (evs, Except.error e) => (evs, Except.error e)
  | (evs, Except.ok _) =>
    if ¬ o.verifyOk then (evs ++ [REvent.verifyArchive], Except.error RErr.verifyFailed)
    else if ¬ o.snapshotOk then
      (evs ++ [REvent.verifyArchive, REvent.snapshotCreate], Except.error RErr.snapshotFailed)
    else
      let rest := afterSnapshot o
      (evs ++ [REvent.verifyArchive, REvent.snapshotCreate] ++ rest.1 ++ [REvent.removeSnapshot], rest.2)

/-! ## Concrete fixtures used by witnesses and counterexamples -/

/-- Modelled from the spec: the stream unit template templates/stream.tmpl is
embedded in the Go binary and not present under src/; the spec specifies the
template layer only as renderBody(kind, parameters) -> text.  This rendering
produces a canonical stream unit from the parsed fields; the transaction
protocol under verification is agnostic to the concrete text. -/
def renderStreamSpec (cfg : StreamConfig) : String :=
  "upstream " ++ cfg.name ++ "_backend \x7b\n    server " ++ cfg.target ++
    ";\n\x7d\nserver \x7b\n    listen " ++ toString cfg.listenPort ++
    ";\n    proxy_pass " ++ cfg.name ++ "_backend;\n\x7d\n"

/-- A site rendering used only to instantiate render-polymorphic theorems. -/
def renderSiteStub : String → SiteConfig → String := fun _ _ => "# rendered site"

/-- Oracle where the syntax check passes but the hot reload fails. -/
def oReloadFails : SysOracle := { testOk := true, reloadOk := false }

/-- An empty site store. -/
def siteStoreEmpty : SiteStore :=
  { available := fun _ => none, enabled := fun _ => false, contentDirs := fun _ => false }

/-- A store holding one disabled site: the available body exists but no
activation link does. -/
def stDisabledSite : SiteStore :=
  { available := fun d => if d = "a.example.com" then some ("# site body") else none
    enabled := fun _ => false
    contentDirs := fun _ => false }

/-- A store holding one enabled site. -/
def stEnabledSite : SiteStore :=
  { available := fun d => if d = "a.example.com" then some ("# site body") else none
    enabled := fun d => if d = "a.example.com" then true else false
    contentDirs := fun _ => false }

/-- The stored stream body before the failing edit: parseable, but carrying
an operator comment that no template re-render can reproduce. -/
def streamPrevBody : String := "listen 9000;\nserver 10.0.0.1:80;\n# operator note: keep"

/-- A stream store holding one enabled stream with body streamPrevBody. -/
def stStream0 : StreamStore :=
  { available := fun n => if n = "tcp9000" then some streamPrevBody else none
    enabled := fun n => if n = "tcp9000" then true else false }

/-- The submitted stream update whose commit will fail. -/
def cfgStreamNew : StreamConfig := { name := "tcp9000", listenPort := 9001, target := "10.0.0.2:80" }

/-- A proxy site creation request. -/
def cfgProxy : SiteConfig :=
  { domain := "a.example.com", siteType := "proxy", backendIP := "10.0.0.1"
    backendPort := 8080, backends := [], targetURL := "" }

/-- A site creation request with an unsupported type. -/
def cfgUnknownType : SiteConfig :=
  { domain := "a.example.com", siteType := "php", backendIP := ""
    backendPort := 0, backends := [], targetURL := "" }

/-- A second stored stream body that parses to the same config as
streamPrevBody but differs from it byte-for-byte. -/
def streamPrevBody2 : String := "listen 9000;\nserver 10.0.0.1:80;"

/-- A stream store holding the comment-free variant of the stream body. -/
def stStream1 : StreamStore :=
  { available := fun n => if n = "tcp9000" then some streamPrevBody2 else none
    enabled := fun n => if n = "tcp9000" then true else false }

/-- The restore oracle used by the C5 witness: everything healthy except the
archive verification. -/
def oVerifyFail : RestoreOracle :=
  { statOk := true, isDir := false, entries := [], statOk2 := true, verifyOk := false
    snapshotOk := true, stopOk := true, mkTempOk := true, extractOk := true
    layout := { hasEtcNginx := true, hasVarWww := true, hasAltNginx := false }
    mkdirOk := true, copyOk := true, validateOk := true, startOk := true
    rbStatOk := true, rbExtractOk := true, rbStartOk := true }

/-- The restore oracle used by the C10 witness: the post-apply validation
fails and the compensating extraction of the snapshot fails as well — the
fatal path — yet the snapshot is still removed. -/
def oFatalRestore : RestoreOracle :=
  { statOk := true, isDir := false, entries := [], statOk2 := true, verifyOk := true
    snapshotOk := true, stopOk := true, mkTempOk := true, extractOk := true
    layout := { hasEtcNginx := true, hasVarWww := true, hasAltNginx := false }
    mkdirOk := true, copyOk := true, validateOk := false, startOk := true
    rbStatOk := true, rbExtractOk := false, rbStartOk := true }

/-! ## Claim theorems -/

/-- Claim C8: the Reload Controller is never invoked without an immediately
preceding Health Validator pass: in every commit attempt the service reload
command runs only if the configuration syntax check succeeded (and then
directly after it), and a syntax-check failure makes the commit attempt fail
without ever issuing the reload command. -/
theorem C8_reload_only_after_test_pass : ∀ o : SysOracle,
    (SysCmdEvent.reloadNginx ∈ (Reload o).1 →
      o.testOk = true ∧ (Reload o).1 = [SysCmdEvent.nginxTest, SysCmdEvent.reloadNginx]) ∧
    (o.testOk = false →
      (Reload o).2 = Except.error SysErr.testFailed ∧
      SysCmdEvent.reloadNginx ∉ (Reload o).1) := by
  intro o
  obtain ⟨t, r⟩ := o
  cases t <;> cases r <;> constructor <;> intro h <;> simp_all [Reload]

/-- Witness for C8 at a concrete oracle whose syntax check fails. -/
theorem C8_witness :
    (Reload { testOk := false, reloadOk := true }).2 = Except.error SysErr.testFailed ∧
    SysCmdEvent.reloadNginx ∉ (Reload { testOk := false, reloadOk := true }).1 :=
  (C8_reload_only_after_test_pass { testOk := false, reloadOk := true }).2 rfl

/-- A site type outside the four supported ones falls through to the default
branch of the CreateSite switch. -/
theorem tmplNameFor_eq_none (s : String) (h1 : s ≠ "proxy") (h2 : s ≠ "static")
    (h3 : s ≠ "lb") (h4 : s ≠ "redirect") : tmplNameFor s = none := by
  unfold tmplNameFor
  split <;> simp_all

/-- Claim C9: creating a site unit with an unrecognized kind returns an error
before any filesystem mutation: the store (available bodies, activation
links, content directories) is returned unchanged. -/
theorem C9_unknown_type_rejected_before_mutation :
    ∀ (render : String → SiteConfig → String) (st : SiteStore) (config : SiteConfig),
    config.siteType ≠ "proxy" → config.siteType ≠ "static" →
    config.siteType ≠ "lb" → config.siteType ≠ "redirect" →
    CreateSite render st config = (st, Except.error ("不支持的站点类型: " ++ config.siteType)) := by
  intro render st config h1 h2 h3 h4
  unfold CreateSite
  rw [tmplNameFor_eq_none config.siteType h1 h2 h3 h4]

/-- Witness for C9 at the concrete unsupported type "php". -/
theorem C9_witness :
    CreateSite renderSiteStub siteStoreEmpty cfgUnknownType =
      (siteStoreEmpty, Except.error ("不支持的站点类型: " ++ "php")) :=
  C9_unknown_type_rejected_before_mutation renderSiteStub siteStoreEmpty cfgUnknownType
    (by decide) (by decide) (by decide) (by decide)

/-- Claim C4: for every create of a new unit whose commit attempt fails at
validation or reload, the unit is entirely absent from the store afterward:
its available copy does not exist (it is none, not merely some "") and no
activation link for it remains. -/
theorem C4_failed_create_leaves_unit_absent :
    ∀ (o : SysOracle) (render : String → SiteConfig → String) (st : SiteStore)
      (config : SiteConfig) (st1 : SiteStore) (er : SysErr),
    st.available config.domain = none →
    CreateSite render st config = (st1, Except.ok ()) →
    (Reload o).2 = Except.error er →
    (postSiteHandler o render st config).1.available config.domain = none ∧
    (postSiteHandler o render st config).1.enabled config.domain = false := by
  intro o render st config st1 er _ hc hr
  unfold postSiteHandler
  rw [hc, hr]
  simp [deleteSiteStore]

/-- Witness for C4: a proxy site created over an empty store, with the
commit attempt failing at reload. -/
theorem C4_witness :
    (postSiteHandler oReloadFails renderSiteStub siteStoreEmpty cfgProxy).1.available cfgProxy.domain = none ∧
    (postSiteHandler oReloadFails renderSiteStub siteStoreEmpty cfgProxy).1.enabled cfgProxy.domain = false :=
  C4_failed_create_leaves_unit_absent oReloadFails renderSiteStub siteStoreEmpty cfgProxy
    (CreateSite renderSiteStub siteStoreEmpty cfgProxy).1 SysErr.reloadFailed rfl rfl rfl

/-- Claim C3 counterexample: a unit that is disabled before a failed delete
does not remain disabled.  The site a.example.com has a body but no
activation link; the delete's commit attempt fails at reload, RestoreSiteRaw
writes the body back and recreates the link, so the unit ends up enabled. -/
theorem C3_counterexample :
    stDisabledSite.enabled ("a.example.com") = false ∧
    (deleteSiteHandler oReloadFails true stDisabledSite ("a.example.com")).1.available ("a.example.com") = some ("# site body") ∧
    (deleteSiteHandler oReloadFails true stDisabledSite ("a.example.com")).1.enabled ("a.example.com") = true :=
  ⟨rfl, rfl, rfl⟩

/-- Claim C3 as amended: for every delete of an existing unit whose commit
attempt fails and whose compensating RestoreSiteRaw write succeeds, the
unit's body afterward is exactly the captured pre-delete body, and the unit
is enabled unconditionally — enablement is preserved only for units that
were enabled before; a previously disabled unit comes back enabled. -/
theorem C3_amended_failed_delete_restores_body_but_enables :
    ∀ (o : SysOracle) (st : SiteStore) (domain prev : String) (er : SysErr),
    st.available domain = some prev →
    (Reload o).2 = Except.error er →
    (deleteSiteHandler o true st domain).1.available domain = some prev ∧
    (deleteSiteHandler o true st domain).1.enabled domain = true := by
  intro o st domain prev er ha hr
  unfold deleteSiteHandler
  rw [ha, hr]
  simp [restoreSiteRawStore, deleteSiteStore]

/-- Witness for the amended C3 at the concrete disabled site. -/
theorem C3_witness :
    (deleteSiteHandler oReloadFails true stDisabledSite ("a.example.com")).1.available ("a.example.com") = some ("# site body") ∧
    (deleteSiteHandler oReloadFails true stDisabledSite ("a.example.com")).1.enabled ("a.example.com") = true :=
  C3_amended_failed_delete_restores_body_but_enables oReloadFails stDisabledSite
    ("a.example.com") ("# site body") SysErr.reloadFailed rfl rfl

/-- Claim C2 counterexample: the rolled_back indication is not reserved for
successful reversions.  Deleting the enabled site a.example.com fails its
commit attempt at reload and the compensating RestoreSiteRaw write also
fails, leaving the unit absent from the store — yet the response still
reports rolled_back true. -/
theorem C2_counterexample :
    (deleteSiteHandler oReloadFails false stEnabledSite ("a.example.com")).2.rolledBack = some true ∧
    (deleteSiteHandler oReloadFails false stEnabledSite ("a.example.com")).1.available ("a.example.com") = none ∧
    (deleteSiteHandler oReloadFails false stEnabledSite ("a.example.com")).1.enabled ("a.example.com") = false :=
  ⟨rfl, rfl, rfl⟩

/-- Claim C2 as amended: every mutation whose commit attempt fails after the
store was changed answers with rolled_back set to true — the flag records
that a rollback was attempted, not whether the compensating store write
succeeded; the two cases are not distinguished. -/
theorem C2_amended_rolled_back_flag_unconditional :
    (∀ (o : SysOracle) (st : SiteStore) (domain content prev : String) (er : SysErr),
      st.available domain = some prev → (Reload o).2 = Except.error er →
      (putSiteRawHandler o st domain content).2.rolledBack = some true) ∧
    (∀ (o : SysOracle) (restoreOk : Bool) (st : SiteStore) (domain prev : String) (er : SysErr),
      st.available domain = some prev → (Reload o).2 = Except.error er →
      (deleteSiteHandler o restoreOk st domain).2.rolledBack = some true) := by
  constructor
  · intro o st domain content prev er ha hr
    unfold putSiteRawHandler
    rw [ha, hr]
  · intro o restoreOk st domain prev er ha hr
    unfold deleteSiteHandler
    rw [ha, hr]
    cases restoreOk <;> simp

/-- Witness for the amended C2: a raw edit and a delete, both failing at
reload; the delete instance is the one whose compensating write fails. -/
theorem C2_witness :
    (putSiteRawHandler oReloadFails stEnabledSite ("a.example.com") ("bad conf")).2.rolledBack = some true ∧
    (deleteSiteHandler oReloadFails false stEnabledSite ("a.example.com")).2.rolledBack = some true :=
  ⟨C2_amended_rolled_back_flag_unconditional.1 oReloadFails stEnabledSite ("a.example.com")
      ("bad conf") ("# site body") SysErr.reloadFailed rfl rfl,
    C2_amended_rolled_back_flag_unconditional.2 oReloadFails false stEnabledSite
      ("a.example.com") ("# site body") SysErr.reloadFailed rfl rfl⟩

/-- The per-line switch of GetStream never changes the unit name. -/
theorem parseStreamLines_name : ∀ (lines : List String) (cfg r : StreamConfig),
    parseStreamLines lines cfg = Except.ok r → r.name = cfg.name := by
  intro lines
  induction lines with
  | nil =>
    intro cfg r h
    simp only [parseStreamLines] at h
    cases h
    rfl
  | cons line rest ih =>
    intro cfg r h
    unfold parseStreamLines at h
    dsimp only at h
    split at h
    · split at h
      · cases h
      · have hh := ih _ _ h
        exact hh
    · split at h
      · have hh := ih _ _ h
        exact hh
      · exact ih _ _ h

/-- GetStream reports the unit under the name it was asked for. -/
theorem GetStream_name (name content : String) (cfg : StreamConfig)
    (h : GetStream name content = Except.ok cfg) : cfg.name = name :=
  parseStreamLines_name _ _ _ h

/-- After a stream update whose commit attempt fails, the stored body is the
template rendering of the config parsed from the captured previous body. -/
theorem putStream_failed_edit_renders_backup :
    ∀ (o : SysOracle) (render : StreamConfig → String) (st : StreamStore)
      (name : String) (configIn : StreamConfig) (prev : String) (backup : StreamConfig) (er : SysErr),
    configIn.name = name →
    st.available name = some prev →
    GetStream name prev = Except.ok backup →
    (Reload o).2 = Except.error er →
    (putStreamHandler o render st name configIn).1.available name = some (render backup) := by
  intro o render st name configIn prev backup er hn ha hb hr
  obtain ⟨cn, cport, ctgt⟩ := configIn
  simp only at hn
  subst hn
  unfold putStreamHandler
  rw [ha]
  dsimp only
  rw [hb]
  dsimp only
  simp only [ite_self]
  rw [if_neg (by simp), hr]
  have hbn : backup.name = cn := GetStream_name _ _ _ hb
  simp [CreateStream, hbn]

/-- Claim C1 counterexample: a stream update (PUT /streams/:name) whose
commit attempt fails does not restore the captured bytes.  The stored body
carries an operator comment; the rollback re-creates the unit from the
template using the parsed previous config, so the restored body differs from
the captured one. -/
theorem C1_counterexample :
    stStream0.available ("tcp9000") = some streamPrevBody ∧
    (Reload oReloadFails).2 = Except.error SysErr.reloadFailed ∧
    (putStreamHandler oReloadFails renderStreamSpec stStream0 ("tcp9000") cfgStreamNew).2.rolledBack = some true ∧
    (putStreamHandler oReloadFails renderStreamSpec stStream0 ("tcp9000") cfgStreamNew).1.available ("tcp9000") ≠ some streamPrevBody := by
  refine ⟨rfl, rfl, rfl, ?_⟩
  decide

/-- The stream-update rollback cannot be byte-for-byte for any template:
streamPrevBody and streamPrevBody2 parse to the same config, so whatever the
embedded template renders, at least one of the two stored bodies is not
restored textually by a failed PUT /streams/:name. -/
theorem putStream_rollback_not_textual_any_render :
    ∀ render : StreamConfig → String,
    ¬ ((putStreamHandler oReloadFails render stStream0 ("tcp9000") cfgStreamNew).1.available ("tcp9000") = some streamPrevBody ∧
       (putStreamHandler oReloadFails render stStream1 ("tcp9000") cfgStreamNew).1.available ("tcp9000") = some streamPrevBody2) := by
  intro render h
  obtain ⟨h1, h2⟩ := h
  have e1 : (putStreamHandler oReloadFails render stStream0 ("tcp9000") cfgStreamNew).1.available ("tcp9000") =
      some (render { name := "tcp9000", listenPort := 9000, target := "10.0.0.1:80" }) :=
    putStream_failed_edit_renders_backup oReloadFails render stStream0 ("tcp9000")
      cfgStreamNew streamPrevBody { name := "tcp9000", listenPort := 9000, target := "10.0.0.1:80" }
      SysErr.reloadFailed rfl rfl rfl rfl
  have e2 : (putStreamHandler oReloadFails render stStream1 ("tcp9000") cfgStreamNew).1.available ("tcp9000") =
      some (render { name := "tcp9000", listenPort := 9000, target := "10.0.0.1:80" }) :=
    putStream_failed_edit_renders_backup oReloadFails render stStream1 ("tcp9000")
      cfgStreamNew streamPrevBody2 { name := "tcp9000", listenPort := 9000, target := "10.0.0.1:80" }
      SysErr.reloadFailed rfl rfl rfl rfl
  rw [e1] at h1
  rw [e2] at h2
  have : streamPrevBody = streamPrevBody2 := by
    have hb1 := Option.some.inj h1
    have hb2 := Option.some.inj h2
    rw [← hb1, ← hb2]
  exact absurd this (by decide)

/-- Claim C1 as amended: for site updates, site raw edits and stream raw
edits whose commit attempt fails at validation or reload, the stored unit
body after the transaction equals the body captured before the mutation,
byte-for-byte; for stream updates (PUT /streams/:name) the body after the
transaction is the template re-rendering of the config parsed from the
captured body, which need not equal the captured bytes. -/
theorem C1_amended_rollback_body :
    (∀ (o : SysOracle) (st : SiteStore) (domain content prev : String) (er : SysErr),
      st.available domain = some prev → (Reload o).2 = Except.error er →
      (putSiteRawHandler o st domain content).1.available domain = some prev) ∧
    (∀ (o : SysOracle) (render : String → SiteConfig → String) (st : SiteStore)
        (domain : String) (configIn : SiteConfig) (prev : String) (st1 : SiteStore) (er : SysErr),
      configIn.domain = domain →
      st.available domain = some prev →
      CreateSite render st configIn = (st1, Except.ok ()) →
      (Reload o).2 = Except.error er →
      (putSiteHandler o render st domain configIn).1.available domain = some prev) ∧
    (∀ (o : SysOracle) (st : StreamStore) (name content prev : String) (er : SysErr),
      st.available name = some prev → (Reload o).2 = Except.error er →
      (putStreamRawHandler o st name content).1.available name = some prev) ∧
    (∀ (o : SysOracle) (render : StreamConfig → String) (st : StreamStore)
        (name : String) (configIn : StreamConfig) (prev : String) (backup : StreamConfig) (er : SysErr),
      configIn.name = name →
      st.available name = some prev →
      GetStream name prev = Except.ok backup →
      (Reload o).2 = Except.error er →
      (putStreamHandler o render st name configIn).1.available name = some (render backup)) := by
  refine ⟨?_, ?_, ?_, ?_⟩
  · intro o st domain content prev er ha hr
    unfold putSiteRawHandler
    rw [ha, hr]
    simp [writeSiteRaw]
  · intro o render st domain configIn prev st1 er hd ha hc hr
    obtain ⟨cd, ctype, cip, cport, cbs, curl⟩ := configIn
    simp only at hd
    subst hd
    unfold putSiteHandler
    simp only [ite_self]
    rw [if_neg (by simp), ha, hc, hr]
    simp [writeSiteRaw]
  · intro o st name content prev er ha hr
    unfold putStreamRawHandler
    rw [ha, hr]
    simp [writeStreamRaw]
  · exact putStream_failed_edit_renders_backup

/-- Witness for the amended C1, one instance per handler, all failing their
commit attempt at reload. -/
theorem C1_witness :
    (putSiteRawHandler oReloadFails stEnabledSite ("a.example.com") ("bad conf")).1.available ("a.example.com") = some ("# site body") ∧
    (putSiteHandler oReloadFails renderSiteStub stEnabledSite ("a.example.com") cfgProxy).1.available ("a.example.com") = some ("# site body") ∧
    (putStreamRawHandler oReloadFails stStream0 ("tcp9000") ("bad conf")).1.available ("tcp9000") = some streamPrevBody ∧
    (putStreamHandler oReloadFails renderStreamSpec stStream0 ("tcp9000") cfgStreamNew).1.available ("tcp9000") =
      some (renderStreamSpec { name := "tcp9000", listenPort := 9000, target := "10.0.0.1:80" }) :=
  ⟨C1_amended_rollback_body.1 oReloadFails stEnabledSite ("a.example.com") ("bad conf")
      ("# site body") SysErr.reloadFailed rfl rfl,
    C1_amended_rollback_body.2.1 oReloadFails renderSiteStub stEnabledSite ("a.example.com")
      cfgProxy ("# site body") (CreateSite renderSiteStub stEnabledSite cfgProxy).1
      SysErr.reloadFailed rfl rfl rfl rfl,
    C1_amended_rollback_body.2.2.1 oReloadFails stStream0 ("tcp9000") ("bad conf")
      streamPrevBody SysErr.reloadFailed rfl rfl,
    C1_amended_rollback_body.2.2.2 oReloadFails renderStreamSpec stStream0 ("tcp9000")
      cfgStreamNew streamPrevBody { name := "tcp9000", listenPort := 9000, target := "10.0.0.1:80" }
      SysErr.reloadFailed rfl rfl rfl rfl⟩

/-- Up to and including the path-resolution phase, the only operations a
restore has performed are stat calls and the backup selection scan. -/
theorem restoreResolve_events : ∀ (o : RestoreOracle) (p : String) (e : REvent),
    e ∈ (restoreResolve o p).1 → e = REvent.statFile ∨ e = REvent.selectBackup := by
  intro o p e h
  unfold restoreResolve at h
  split at h
  · simp at h
  · split at h
    · simp_all
    · split at h
      · split at h
        · simp_all
        · split at h <;> simp_all <;> tauto
      · simp_all

/-- Claim C5: a restore given an archive that fails the structural
verification (tar -tzf) terminates with a failure, and the whole invocation
performs nothing beyond stat calls, the backup selection scan, and the
verification itself — in particular no stop, snapshot, extraction or copy
operation ever runs. -/
theorem C5_corrupt_archive_stops_nothing : ∀ (o : RestoreOracle) (p : String),
    o.verifyOk = false →
    (Restore o p).2 ≠ Except.ok () ∧
    (∀ e ∈ (Restore o p).1,
      e = REvent.statFile ∨ e = REvent.selectBackup ∨ e = REvent.verifyArchive) := by
  intro o p hv
  unfold Restore
  rcases hres : restoreResolve o p with ⟨evs, r⟩
  cases r with
  | error err =>
    refine ⟨by simp, ?_⟩
    intro e he
    simp only at he
    have := restoreResolve_events o p e (by rw [hres]; exact he)
    tauto
  | ok u =>
    dsimp only
    rw [if_pos (by simp [hv])]
    refine ⟨by simp, ?_⟩
    intro e he
    simp only [List.mem_append, List.mem_singleton] at he
    rcases he with he | he
    · have := restoreResolve_events o p e (by rw [hres]; exact he)
      tauto
    · tauto

/-- Witness for C5 at a concrete corrupt archive. -/
theorem C5_witness :
    (Restore oVerifyFail ("/backups/corrupt.tar.gz")).2 ≠ Except.ok () ∧
    (∀ e ∈ (Restore oVerifyFail ("/backups/corrupt.tar.gz")).1,
      e = REvent.statFile ∨ e = REvent.selectBackup ∨ e = REvent.verifyArchive) :=
  C5_corrupt_archive_stops_nothing oVerifyFail ("/backups/corrupt.tar.gz") rfl

/-- Claim C10: once the pre-restore safety snapshot has been created
(snapshotCreate performed and its command succeeded), every return path of
the restore — success, clean rollback, and the fatal case where the
compensating restore itself failed — removes the snapshot file. -/
theorem C10_snapshot_always_removed : ∀ (o : RestoreOracle) (p : String),
    REvent.snapshotCreate ∈ (Restore o p).1 → o.snapshotOk = true →
    REvent.removeSnapshot ∈ (Restore o p).1 := by
  intro o p hmem hsnap
  unfold Restore at hmem ⊢
  rcases hres : restoreResolve o p with ⟨evs, r⟩
  rw [hres] at hmem
  cases r with
  | error err =>
    simp only at hmem
    exact absurd (restoreResolve_events o p _ (by rw [hres]; exact hmem)) (by simp)
  | ok u =>
    dsimp only at hmem ⊢
    by_cases hv : o.verifyOk = true
    · simp [hv, hsnap]
    · simp only [hv, Bool.false_eq_true, not_false_eq_true, if_true,
        List.mem_append, List.mem_singleton] at hmem
      rcases hmem with hmem | hmem
      · exact absurd (restoreResolve_events o p _ (by rw [hres]; exact hmem)) (by simp)
      · cases hmem

/-- Witness for C10 on the fatal path. -/
theorem C10_witness :
    REvent.removeSnapshot ∈ (Restore oFatalRestore ("/backups/nightly.tar.gz")).1 :=
  C10_snapshot_always_removed oFatalRestore ("/backups/nightly.tar.gz") (by decide) rfl

/-- Claim C7: the Applying-stage policy.  An archive containing the
configuration subtree etc/nginx gets it copied into the live configuration
root; one containing the served-content subtree var/www/html gets it copied
into the live content root; the alternate top-level nginx configuration
subtree is copied into the configuration root when etc/nginx is absent; and
when none of the recognized subtrees is present the entire archive root is
copied into the configuration root as a flat configuration-tree dump. -/
theorem C7_apply_policy : ∀ a : ArchiveLayout,
    (a.hasEtcNginx = true → (CopySrc.etcNginx, CopyDest.nginxConfDir) ∈ applyTasks a) ∧
    (a.hasVarWww = true → (CopySrc.varWwwHtml, CopyDest.webRootDir) ∈ applyTasks a) ∧
    (a.hasEtcNginx = false → a.hasAltNginx = true →
      (CopySrc.altNginx, CopyDest.nginxConfDir) ∈ applyTasks a) ∧
    (a.hasEtcNginx = false → a.hasVarWww = false → a.hasAltNginx = false →
      applyTasks a = [(CopySrc.archiveRoot, CopyDest.nginxConfDir)]) := by
  intro a
  obtain ⟨e, v, n⟩ := a
  cases e <;> cases v <;> cases n <;> simp [applyTasks]

/-- Witness for C7: a full archive, an alternate-layout archive, and an
unrecognized flat dump. -/
theorem C7_witness :
    (CopySrc.etcNginx, CopyDest.nginxConfDir) ∈
      applyTasks { hasEtcNginx := true, hasVarWww := true, hasAltNginx := false } ∧
    (CopySrc.varWwwHtml, CopyDest.webRootDir) ∈
      applyTasks { hasEtcNginx := true, hasVarWww := true, hasAltNginx := false } ∧
    (CopySrc.altNginx, CopyDest.nginxConfDir) ∈
      applyTasks { hasEtcNginx := false, hasVarWww := false, hasAltNginx := true } ∧
    applyTasks { hasEtcNginx := false, hasVarWww := false, hasAltNginx := false } =
      [(CopySrc.archiveRoot, CopyDest.nginxConfDir)] :=
  ⟨(C7_apply_policy { hasEtcNginx := true, hasVarWww := true, hasAltNginx := false }).1 rfl,
    (C7_apply_policy { hasEtcNginx := true, hasVarWww := true, hasAltNginx := false }).2.1 rfl,
    (C7_apply_policy { hasEtcNginx := false, hasVarWww := false, hasAltNginx := true }).2.2.1 rfl rfl,
    (C7_apply_policy { hasEtcNginx := false, hasVarWww := false, hasAltNginx := false }).2.2.2 rfl rfl rfl⟩

/-- A skipped entry (directory, wrong suffix, or failed Info call) leaves the
selection state unchanged. -/
theorem selGo_cons_not_recog (dir : String) (e : DirEntry) (rest : List DirEntry)
    (sel : String) (t : Nat) (h : recognizedEntry e = false) :
    selGo dir (e :: rest) sel t = selGo dir rest sel t := by
  obtain ⟨nm, d, mt, io⟩ := e
  simp only [recognizedEntry] at h
  cases d
  · cases hs : hasTarGzSuffix nm
    · simp [selGo, hs]
    · cases io
      · simp [selGo, hs]
      · simp [hs] at h
  · simp [selGo]

/-- A recognized entry replaces the selection when nothing is selected yet
or its modification time is strictly newer. -/
theorem selGo_cons_recog_take (dir : String) (e : DirEntry) (rest : List DirEntry)
    (sel : String) (t : Nat) (h : recognizedEntry e = true)
    (hc : sel = "" ∨ e.modTime > t) :
    selGo dir (e :: rest) sel t = selGo dir rest (dir ++ "/" ++ e.name) e.modTime := by
  obtain ⟨nm, d, mt, io⟩ := e
  simp only [recognizedEntry, Bool.and_eq_true, Bool.not_eq_true'] at h
  obtain ⟨⟨hd, hs⟩, hio⟩ := h
  subst hd
  subst hio
  simp only at hc
  simp [selGo, hs, hc]

/-- A recognized entry is ignored when something is already selected and its
modification time is not strictly newer (ties keep the earlier entry). -/
theorem selGo_cons_recog_keep (dir : String) (e : DirEntry) (rest : List DirEntry)
    (sel : String) (t : Nat) (h : recognizedEntry e = true)
    (hsel : sel ≠ "") (hle : e.modTime ≤ t) :
    selGo dir (e :: rest) sel t = selGo dir rest sel t := by
  obtain ⟨nm, d, mt, io⟩ := e
  simp only [recognizedEntry, Bool.and_eq_true, Bool.not_eq_true'] at h
  obtain ⟨⟨hd, hs⟩, hio⟩ := h
  subst hd
  subst hio
  simp only at hle
  simp [selGo, hs, hsel, Nat.not_lt.mpr hle]

/-- Once something is selected, a tail whose recognized entries are all no
newer than the current latest time leaves the selection unchanged. -/
theorem selGo_keep_all : ∀ (l : List DirEntry) (dir sel : String) (t : Nat),
    sel ≠ "" → (∀ e ∈ l, recognizedEntry e = true → e.modTime ≤ t) →
    selGo dir l sel t = (sel, t) := by
  intro l
  induction l with
  | nil => intro dir sel t _ _; rfl
  | cons e rest ih =>
    intro dir sel t hsel hall
    cases hr : recognizedEntry e
    · rw [selGo_cons_not_recog dir e rest sel t hr]
      exact ih dir sel t hsel (fun x hx => hall x (List.mem_cons_of_mem _ hx))
    · rw [selGo_cons_recog_keep dir e rest sel t hr hsel (hall e (List.mem_cons_self _ _) hr)]
      exact ih dir sel t hsel (fun x hx => hall x (List.mem_cons_of_mem _ hx))

/-- Joining a directory and a file name never yields the empty string, the
loop's nothing-selected sentinel. -/
theorem dirJoin_ne_empty (dir name : String) : dir ++ "/" ++ name ≠ "" := by
  intro h
  have hlen := congrArg String.length h
  simp [String.length_append] at hlen
  exact absurd hlen.1.2 (by decide)

/-- The selection loop returns the first recognized entry that is strictly
newer than every recognized entry before it and at least as new as every
recognized entry after it. -/
theorem selGo_firstmax : ∀ (pre : List DirEntry) (dir : String) (e : DirEntry)
    (post : List DirEntry) (sel : String) (t : Nat),
    recognizedEntry e = true →
    (sel = "" ∨ t < e.modTime) →
    (∀ x ∈ pre, recognizedEntry x = true → x.modTime < e.modTime) →
    (∀ x ∈ post, recognizedEntry x = true → x.modTime ≤ e.modTime) →
    selGo dir (pre ++ e :: post) sel t = (dir ++ "/" ++ e.name, e.modTime) := by
  intro pre
  induction pre with
  | nil =>
    intro dir e post sel t he hinv _ hpost
    rw [List.nil_append, selGo_cons_recog_take dir e post sel t he hinv]
    exact selGo_keep_all post dir _ e.modTime (dirJoin_ne_empty dir e.name) hpost
  | cons x pre' ih =>
    intro dir e post sel t he hinv hpre hpost
    rw [List.cons_append]
    cases hr : recognizedEntry x
    · rw [selGo_cons_not_recog dir x _ sel t hr]
      exact ih dir e post sel t he hinv (fun y hy hry => hpre y (List.mem_cons_of_mem _ hy) hry) hpost
    · have hx : x.modTime < e.modTime := hpre x (List.mem_cons_self _ _) hr
      by_cases hc : sel = "" ∨ x.modTime > t
      · rw [selGo_cons_recog_take dir x _ sel t hr hc]
        exact ih dir e post _ x.modTime he (Or.inr hx)
          (fun y hy hry => hpre y (List.mem_cons_of_mem _ hy) hry) hpost
      · push_neg at hc
        rw [selGo_cons_recog_keep dir x _ sel t hr hc.1 hc.2]
        exact ih dir e post sel t he hinv
          (fun y hy hry => hpre y (List.mem_cons_of_mem _ hy) hry) hpost

/-- Claim C6 counterexample: when two recognized archives share the newest
modification time, the scan returns the one encountered first, not last:
with a.tar.gz and b.tar.gz both at time 5, the first one is selected. -/
theorem C6_counterexample :
    selectLatestBackup ("/backups")
      [{ name := "a.tar.gz", isDir := false, modTime := 5, infoOk := true },
       { name := "b.tar.gz", isDir := false, modTime := 5, infoOk := true }] =
      Except.ok ("/backups/a.tar.gz") ∧
    ("/backups/a.tar.gz" : String) ≠ ("/backups/b.tar.gz") :=
  ⟨rfl, by decide⟩

/-- Claim C6 as amended: selectLatestBackup returns the recognized archive
entry (non-directory with the .tar.gz suffix and a successful Info call)
whose modification time is the newest; with strictly increasing times it
returns the newest archive, and when several recognized archives share the
newest modification time it returns the one encountered first during the
scan (strict After keeps the incumbent on ties). -/
theorem C6_amended_newest_wins_ties_first :
    ∀ (dir : String) (pre post : List DirEntry) (e : DirEntry),
    recognizedEntry e = true →
    (∀ x ∈ pre, recognizedEntry x = true → x.modTime < e.modTime) →
    (∀ x ∈ post, recognizedEntry x = true → x.modTime ≤ e.modTime) →
    selectLatestBackup dir (pre ++ e :: post) = Except.ok (dir ++ "/" ++ e.name) := by
  intro dir pre post e he hpre hpost
  unfold selectLatestBackup
  rw [selGo_firstmax pre dir e post "" 0 he (Or.inl rfl) hpre hpost]
  simp [dirJoin_ne_empty dir e.name]

/-- Witness for the amended C6: strictly increasing times T1 < T2 < T3
followed by a tie at T3; the first T3 archive wins. -/
theorem C6_witness :
    selectLatestBackup ("/backups")
      ([{ name := "old.tar.gz", isDir := false, modTime := 1, infoOk := true },
        { name := "mid.tar.gz", isDir := false, modTime := 2, infoOk := true }] ++
        { name := "new.tar.gz", isDir := false, modTime := 3, infoOk := true } ::
        [{ name := "tie.tar.gz", isDir := false, modTime := 3, infoOk := true }]) =
      Except.ok ("/backups" ++ "/" ++ "new.tar.gz") :=
  C6_amended_newest_wins_ties_first ("/backups")
    [{ name := "old.tar.gz", isDir := false, modTime := 1, infoOk := true },
      { name := "mid.tar.gz", isDir := false, modTime := 2, infoOk := true }]
    [{ name := "tie.tar.gz", isDir := false, modTime := 3, infoOk := true }]
    { name := "new.tar.gz", isDir := false, modTime := 3, infoOk := true }
    (by decide) (by decide) (by decide)

end NginxMgr
